import Mathlib

/-!
Verification of the pypedream core pipeline framework, a shallow embedding of
src/pypedream/core/stages.py and src/pypedream/core/pipelines.py.

Modelling conventions:
* Python exceptions are an explicit error type `Err`; fallible code returns
  `Except Err _`.  Raising is `.error`, propagation is short-circuiting.
* Python dictionaries are insertion-ordered association lists with
  last-write-wins insertion (`pyInsert` / `pyUpdate`), matching CPython.
* Python objects are the inductive type `Obj`.  Callables are Lean functions
  returning `Except Err Obj`; a ContextVar is its current value (or nothing,
  in which case reading it raises LookupError).
* Logging calls and warning emission are side effects with no influence on
  data flow and are dropped.
-/

/-- Exceptions of the embedded program.  Constructor names follow the Python
exception classes.  `UnboundInputException` carries the textual rendering of
the binding it was raised from plus the original exception as its cause
(the `from e` clause); `ExitPipeline` carries its message, its `error` flag
and an optional cause. -/
inductive Err where
  | valueError (msg : String)
  | typeError (msg : String)
  | lookupError
  | attributeError (msg : String)
  | keyError (msg : String)
  | InvalidParameterException (msg : String)
  | UndefinedInputException (msg : String)
  | UnboundInputException (render : String) (cause : Err)
  | genericExc (msg : String)
  | ExitPipeline (message : String) (error : Bool) (cause : Option Err)

set_option genSizeOfSpec false in
/-- Python objects, as far as the core needs them. -/
inductive Obj where
  | str (s : String)
  | int (n : Int)
  | bool (b : Bool)
  | pynone
  | list (xs : List Obj)
  | ctxvar (val : Option Obj)
  | fn (f : Unit → Except Err Obj)

/-- Dictionary insertion, CPython semantics: an existing key keeps its
position and gets the new value, a new key is appended. -/
def pyInsert (d : List (String × α)) (k : String) (v : α) : List (String × α) :=
  if d.any (fun p => p.1 == k) then
    d.map (fun p => if p.1 == k then (k, v) else p)
  else
    d ++ [(k, v)]

/-- Python dict.update: left-to-right insertion of every pair of `e`. -/
def pyUpdate (d : List (String × α)) (e : List (String × α)) : List (String × α) :=
  e.foldl (fun acc p => pyInsert acc p.1 p.2) d

/-- Build a dict from pairs, as a dict comprehension does. -/
def pyFromList (l : List (String × α)) : List (String × α) :=
  pyUpdate [] l

/-- Python dict.get with no default (None when absent). -/
def pyLookup (d : List (String × α)) (k : String) : Option α :=
  (d.find? (fun p => p.1 == k)).map (fun p => p.2)

/-- Python dict.get with a default. -/
def pyGetD (d : List (String × α)) (k : String) (dflt : α) : α :=
  (pyLookup d k).getD dflt

/-- Python `k in d` for dictionaries. -/
def pyContains (d : List (String × α)) (k : String) : Bool :=
  d.any (fun p => p.1 == k)

/-- The default key stage outputs are stored under. -/
def DEFAULT_OUTPUT_KEY : String := "return"

/-- The OutputMapperBehaviour Flag enum: one boolean per flag bit. -/
structure OutputMapperBehaviour where
  strict : Bool
  chill : Bool
  preserve : Bool
  warn_unexpected : Bool
  deriving DecidableEq

def STRICT : OutputMapperBehaviour := ⟨true, false, false, false⟩

def CHILL : OutputMapperBehaviour := ⟨false, true, false, false⟩

def PRESERVE : OutputMapperBehaviour := ⟨false, false, true, false⟩

def WARN_UNEXPECTED : OutputMapperBehaviour := ⟨false, false, false, true⟩

/-- Python Flag union, the | operator. -/
def OutputMapperBehaviour.or (a b : OutputMapperBehaviour) : OutputMapperBehaviour :=
  ⟨a.strict || b.strict, a.chill || b.chill, a.preserve || b.preserve,
    a.warn_unexpected || b.warn_unexpected⟩

/-- Python `f in value` for Flag members: all bits of `f` are set in `value`. -/
def OutputMapperBehaviour.mem (f v : OutputMapperBehaviour) : Bool :=
  (!f.strict || v.strict) && (!f.chill || v.chill) &&
    (!f.preserve || v.preserve) && (!f.warn_unexpected || v.warn_unexpected)

/-- OutputMapperBehaviour._attrsvalidator: rejects the value unless at least
one of STRICT, CHILL, PRESERVE is included (the isinstance check cannot fail
in the embedding). -/
def OutputMapperBehaviour.attrsvalidator (value : OutputMapperBehaviour) : Except Err Unit :=
  if !(STRICT.mem value || CHILL.mem value || PRESERVE.mem value) then
    .error (.valueError "Invalid behaviour value. Should include STRICT, CHILL, or PRESERVE to determine how to handle unexpected outputs.")
  else
    .ok ()

/-- Individual flag bits, for modelling Python `list(flag_value)`. -/
inductive BFlag where
  | strict
  | chill
  | preserve
  | warn_unexpected
  deriving DecidableEq

/-- Python `list(self.behaviour)`: the set bits in declaration order. -/
def OutputMapperBehaviour.toList (b : OutputMapperBehaviour) : List BFlag :=
  (if b.strict then [BFlag.strict] else []) ++
    (if b.chill then [BFlag.chill] else []) ++
      (if b.preserve then [BFlag.preserve] else []) ++
        (if b.warn_unexpected then [BFlag.warn_unexpected] else [])

/-- DEFAULT_OUTPUT_MAPPER wraps the whole return value under the single key
DEFAULT_OUTPUT_KEY. -/
def DEFAULT_OUTPUT_MAPPER (output : Obj) : Except Err (List (String × Obj)) :=
  .ok [(DEFAULT_OUTPUT_KEY, output)]

/-- SequentialOutputMapper data (its attrs fields). -/
structure SequentialOutputMapper where
  keys : List String
  behaviour : OutputMapperBehaviour

/-- The reserved key extra outputs are preserved under. -/
def EXTRA_MAPPING_KEY : String := "_extra"

/-- attrs construction of a SequentialOutputMapper: the behaviour validator
runs in the generated init and can raise. -/
def SequentialOutputMapper.mk? (keys : List String) (behaviour : OutputMapperBehaviour) :
    Except Err SequentialOutputMapper :=
  match behaviour.attrsvalidator with
  | .error e => .error e
  | .ok _ => .ok ⟨keys, behaviour⟩

/-- SequentialOutputMapper._handle_unexpected, translated clause by clause:
the Python match on `list(self.behaviour)` with patterns `[STRICT]`,
`[CHILL, *etc]`, `[PRESERVE, *etc]` and a catch-all that raises.  The
WARN_UNEXPECTED branches only emit a warning and are dropped. -/
def SequentialOutputMapper.handle_unexpected (m : SequentialOutputMapper) (x : List Obj) :
    Except Err (List (String × Obj)) :=
  match m.behaviour.toList with
  | [BFlag.strict] =>
      .error (.valueError ("Length of x (" ++ toString x.length ++ ") does not match length of keys (" ++ toString m.keys.length ++ ")"))
  | BFlag.chill :: _etc =>
      .ok (if x.length > m.keys.length then pyFromList (m.keys.zip (x.take m.keys.length))
           else pyFromList ((m.keys.take x.length).zip x))
  | BFlag.preserve :: _etc =>
      .ok (if x.length > m.keys.length then
             pyUpdate (pyFromList (m.keys.zip (x.take m.keys.length)))
               [(EXTRA_MAPPING_KEY, Obj.list (x.drop m.keys.length))]
           else pyFromList ((m.keys.take x.length).zip x))
  | _ =>
      .error (.valueError "Invalid behaviour value. Should include STRICT, CHILL, or PRESERVE to determine how to handle unexpected outputs.")

/-- SequentialOutputMapper.__call__: exact length match zips keys to values,
anything else goes to _handle_unexpected. -/
def SequentialOutputMapper.call (m : SequentialOutputMapper) (x : List Obj) :
    Except Err (List (String × Obj)) :=
  if x.length == m.keys.length then .ok (pyFromList (m.keys.zip x))
  else m.handle_unexpected x

/-- Adapter used where a SequentialOutputMapper is installed as a Stage's
output_mapper: the stage return value must be a sequence. -/
def SequentialOutputMapper.asOutputMapper (m : SequentialOutputMapper) :
    Obj → Except Err (List (String × Obj)) :=
  fun o =>
    match o with
    | Obj.list xs => m.call xs
    | _ => .error (.typeError "object is not a sequence")

/-- KeyedOutputMapper data (its attrs fields). -/
structure KeyedOutputMapper where
  keys : List (String × String)
  behaviour : OutputMapperBehaviour

/-- attrs construction of a KeyedOutputMapper: same validator on behaviour. -/
def KeyedOutputMapper.mk? (keys : List (String × String)) (behaviour : OutputMapperBehaviour) :
    Except Err KeyedOutputMapper :=
  match behaviour.attrsvalidator with
  | .error e => .error e
  | .ok _ => .ok ⟨keys, behaviour⟩

/-- The value of the module-level UNBOUND sentinel string. -/
def UNBOUND : String := "UNBOUND"

/-- The INPUT_NOT_FOUND default value of the library input mappers. -/
def INPUT_NOT_FOUND : Obj := Obj.str "INPUT NOT FOUND"

/-- The source slot of an InputBinding.  Python distinguishes unbound from
bound by object identity with the module sentinel (`source is not UNBOUND`),
so the slot is a sum: `unbound` is the sentinel itself, `bound v` any other
object, including a distinct string that merely equals "UNBOUND". -/
inductive Slot where
  | unbound
  | bound (v : Obj)

/-- The object actually stored in the slot: the sentinel is the string
"UNBOUND". -/
def Slot.obj : Slot → Obj
  | Slot.unbound => Obj.str UNBOUND
  | Slot.bound v => v

/-- Python `x == UNBOUND`: value equality against the sentinel string.  Only
a string equal to "UNBOUND" compares true; every other object is unequal. -/
def objEqUNBOUND : Obj → Bool
  | Obj.str s => s == UNBOUND
  | _ => false

/-- must_bind: the default binding mapper, raising ValueError when its
argument equals (by value) the UNBOUND sentinel. -/
def must_bind (x : Obj) : Except Err Obj :=
  if objEqUNBOUND x then .error (.valueError "Unbound input") else .ok x

/-- An InputBinding: a source slot, a mapper, and an optional deferred
source (a ContextVar or a callable, stored as a plain object). -/
structure InputBinding where
  source : Slot := Slot.unbound
  mapper : Obj → Except Err Obj := must_bind
  defer : Option Obj := none

/-- Python str() of an object, for exception message rendering.  Functions
and context variables render as opaque tokens (Python shows a repr with an
address, which has no observable structure). -/
def renderObj : Obj → String
  | Obj.str s => s
  | Obj.int n => toString n
  | Obj.bool b => toString b
  | Obj.pynone => "None"
  | Obj.list _ => "<list>"
  | Obj.ctxvar _ => "<ContextVar>"
  | Obj.fn _ => "<function>"

/-- Rendering of an optional defer slot. -/
def renderDefer : Option Obj → String
  | none => "None"
  | some d => renderObj d

/-- The _TMPLT_MSG rendering of UnboundInputException: the binding's source,
mapper and defer state.  The mapper, a function object, renders opaquely. -/
def InputBinding.render (b : InputBinding) : String :=
  "Failure to bind InputBinding with source=" ++ renderObj b.source.obj ++
    ", mapper=<mapper>, defer=" ++ renderDefer b.defer

/-- The body of the try block of InputBinding.__call__: the match on
(source is not UNBOUND, defer is not None) with cases
(True, _) | (_, False) applying the mapper to source, and the remaining
case applying the mapper to the defer object. -/
def InputBinding.attempt (b : InputBinding) : Except Err Obj :=
  match b.source, b.defer with
  | Slot.bound v, _ => b.mapper v
  | Slot.unbound, none => b.mapper (Slot.obj Slot.unbound)
  | Slot.unbound, some d => b.mapper d

/-- The wrapping except clause of InputBinding.__call__: any exception from
resolution is re-raised as UnboundInputException with the original as
cause. -/
def wrapUnbound (b : InputBinding) : Except Err Obj → Except Err Obj
  | .ok v => .ok v
  | .error e => .error (.UnboundInputException b.render e)

/-- InputBinding.__call__. -/
def InputBinding.call (b : InputBinding) : Except Err Obj :=
  wrapUnbound b b.attempt

/-- InputBinding.immediate: bind to a known value. -/
def InputBinding.immediate (source : Obj) (mapper : Obj → Except Err Obj := must_bind) :
    InputBinding :=
  ⟨Slot.bound source, mapper, none⟩

/-- The _unwrap_ctxvar_then_apply wrapper: read the ContextVar, then apply
the user mapper.  Reading an unset variable raises LookupError, unhandled;
a defer object that is not a ContextVar has no get attribute. -/
def _unwrap_ctxvar_then_apply (mapper : Obj → Except Err Obj) : Obj → Except Err Obj :=
  fun var =>
    match var with
    | Obj.ctxvar (some v) => mapper v
    | Obj.ctxvar none => .error Err.lookupError
    | _ => .error (.attributeError "object has no attribute get")

/-- The _call_first_then_apply wrapper: call the deferred function (its
arguments are already closed over), then apply the user mapper. -/
def _call_first_then_apply (mapper : Obj → Except Err Obj) : Obj → Except Err Obj :=
  fun f =>
    match f with
    | Obj.fn g =>
        match g () with
        | .ok t => mapper t
        | .error e => .error e
    | _ => .error (.typeError "object is not callable")

/-- InputBinding.contextual: source stays unbound, the ContextVar goes in
defer, and with get_first the mapper is wrapped by
_unwrap_ctxvar_then_apply. -/
def InputBinding.contextual (source : Obj) (mapper : Obj → Except Err Obj := must_bind)
    (get_first : Bool := true) : InputBinding :=
  ⟨Slot.unbound, if get_first then _unwrap_ctxvar_then_apply mapper else mapper, some source⟩

/-- InputBinding.callback: source stays unbound, the callable goes in defer,
and with call_first the mapper is wrapped by _call_first_then_apply. -/
def InputBinding.callback (fn : Obj) (mapper : Obj → Except Err Obj := must_bind)
    (call_first : Bool := true) : InputBinding :=
  ⟨Slot.unbound, if call_first then _call_first_then_apply mapper else mapper, some fn⟩

/-- An Input: argument name, binding, logging flag. -/
structure Input where
  as_arg : String
  bind : InputBinding
  logged : Bool := false

/-- Input.get: the resolved value as a singleton dictionary keyed by
as_arg.  Resolution failures propagate. -/
def Input.get (i : Input) : Except Err (List (String × Obj)) :=
  match i.bind.call with
  | .ok v => .ok [(i.as_arg, v)]
  | .error e => .error e

/-- The _prepare_inputs_and_context helper: resolve every input in
declaration order into one keyword dictionary, collecting the logged subset
separately.  The first resolution failure propagates. -/
def _prepare_inputs_and_context (inputs : List Input) :
    Except Err (List (String × Obj) × List (String × Obj)) :=
  inputs.foldlM
    (fun acc i =>
      match i.get with
      | .error e => .error e
      | .ok d => .ok (pyUpdate acc.1 d, if i.logged then pyUpdate acc.2 d else acc.2))
    ([], [])

/-- A Stage: the wrapped function (taking its keyword dictionary), inputs,
mutable run state, and the output mapper. -/
structure Stage where
  function : List (String × Obj) → Except Err Obj
  inputs : List Input := []
  has_run : Bool := false
  outputs : List (String × Obj) := []
  output_mapper : Obj → Except Err (List (String × Obj)) := DEFAULT_OUTPUT_MAPPER

/-- Stage.run: resolve inputs, overlay kwargs, invoke the function, map the
output, record outputs and has_run, return the raw output.  Any failure
before the final assignments leaves the stage unchanged (the logging
context manager has no data effect and is dropped). -/
def Stage.run (s : Stage) (kwargs : List (String × Obj)) : Stage × Except Err Obj :=
  match _prepare_inputs_and_context s.inputs with
  | .error e => (s, .error e)
  | .ok (inputs, _logctx) =>
    match s.function (pyUpdate inputs kwargs) with
    | .error e => (s, .error e)
    | .ok output =>
      match s.output_mapper output with
      | .error e => (s, .error e)
      | .ok mapped => (⟨s.function, s.inputs, true, mapped, s.output_mapper⟩, .ok output)

/-- Stage.reset: clear has_run and outputs, keep function and inputs. -/
def Stage.reset (s : Stage) : Stage :=
  ⟨s.function, s.inputs, false, [], s.output_mapper⟩

/-- A stage table, the ordered name-to-Stage dictionary. -/
abbrev StageTable := List (String × Stage)

/-- DependencyInputMapper fields. -/
structure DependencyInputMapper where
  from_stage : String
  from_output : String := DEFAULT_OUTPUT_KEY
  default : Obj := INPUT_NOT_FOUND
  required : Bool := true

/-- DependencyInputMapper.__call__ on a stage table or the UNBOUND sentinel
(modelled as `none`), translated branch by branch, including the catch-all
match arm of the source that raises a bare Exception reading "what the f". -/
def DependencyInputMapper.call (m : DependencyInputMapper) (source : Option StageTable) :
    Except Err Obj :=
  match source with
  | none =>
      if m.required then
        .error (.UndefinedInputException "Source stage table is undefined... how could I get a stage output?")
      else
        .ok m.default
  | some tbl =>
      match pyLookup tbl m.from_stage with
      | none =>
          if m.required then
            .error (.UndefinedInputException ("Stage " ++ m.from_stage ++ " not found in source, hence output " ++ m.from_output ++ " not found."))
          else
            .ok m.default
      | some stage =>
          match stage.has_run, pyContains stage.outputs m.from_output, m.required with
          | false, _, true =>
              .error (.UndefinedInputException ("Stage " ++ m.from_stage ++ " has not run yet. Cannot get output " ++ m.from_output ++ "."))
          | true, false, true =>
              .error (.UndefinedInputException ("Stage " ++ m.from_stage ++ " completed and did not produce output " ++ m.from_output ++ "."))
          | true, _, _ =>
              .ok (pyGetD stage.outputs m.from_output m.default)
          | false, _, false =>
              .error (.genericExc "what the f")

/-- KeyedInputMapper fields. -/
structure KeyedInputMapper where
  from_key : String
  default : Obj := INPUT_NOT_FOUND
  required : Bool := true

/-- KeyedInputMapper.__call__ on a dictionary source or the UNBOUND sentinel
(modelled as `none`). -/
def KeyedInputMapper.call (m : KeyedInputMapper) (source : Option (List (String × Obj))) :
    Except Err Obj :=
  match source, m.required with
  | none, true =>
      .error (.UndefinedInputException "Source mapping is undefined... how could I get a keyed input?")
  | none, false => .ok m.default
  | some d, true =>
      if !(pyContains d m.from_key) then
        .error (.UndefinedInputException ("Key " ++ m.from_key ++ " not found in source."))
      else
        match pyLookup d m.from_key with
        | some v => .ok v
        | none => .error (.keyError m.from_key)
  | some d, false => .ok (pyGetD d m.from_key m.default)

/-- The UNSET_PARAMETER marker. -/
def UNSET_PARAMETER : Obj := Obj.str "UNSET_PARAMETER"

/-- The UNSET_VARIABLE marker. -/
def UNSET_VARIABLE : Obj := Obj.str "UNSET_VARIABLE"

/-- The Parameters store: declared key set, current values, defaults. -/
structure Parameters where
  parameter_set : List String := []
  parameters : List (String × Obj) := []
  defaults : List (String × Obj) := []

/-- Parameters.sets: set several values, failing if any key is outside the
declared parameter set. -/
def Parameters.sets (p : Parameters) (kwargs : List (String × Obj)) : Except Err Parameters :=
  if kwargs.any (fun kv => !(p.parameter_set.contains kv.1)) then
    .error (.InvalidParameterException "Attempting to set parameters not found in pipeline parameters")
  else
    .ok ⟨p.parameter_set, pyUpdate p.parameters kwargs, p.defaults⟩

/-- Parameters.define: the parameter set is the union of the given set and
the default keys, and the defaults are applied via sets. -/
def Parameters.define (parameter_set : List String) (defaults : List (String × Obj)) :
    Except Err Parameters :=
  Parameters.sets
    ⟨parameter_set ++ (defaults.map Prod.fst).filter (fun k => !parameter_set.contains k),
      [], defaults⟩
    defaults

/-- The class body of Parameters defines no attribute named
PARAMATERS_FACTORY, so the attribute lookup performed by reset finds
nothing; modelled as an absent optional. -/
def Parameters.PARAMATERS_FACTORY : Option (Unit → List (String × Obj)) := none

/-- Parameters.reset as written: evaluate self.PARAMATERS_FACTORY() and then
re-apply the defaults.  The attribute does not exist, so the lookup raises
AttributeError. -/
def Parameters.reset (p : Parameters) : Except Err Parameters :=
  match Parameters.PARAMATERS_FACTORY with
  | none => .error (.attributeError "Parameters object has no attribute PARAMATERS_FACTORY")
  | some factory => Parameters.sets ⟨p.parameter_set, factory (), p.defaults⟩ p.defaults

/-- The Variables store: current values and defaults, no key restriction.
The field called variables in the source is named vars here because
variables is a reserved word in Lean. -/
structure Variables where
  vars : List (String × Obj) := []
  defaults : List (String × Obj) := []

/-- Variables.sets: unrestricted dictionary update. -/
def Variables.sets (v : Variables) (kwargs : List (String × Obj)) : Variables :=
  ⟨pyUpdate v.vars kwargs, v.defaults⟩

/-- Variables.define. -/
def Variables.define (defaults : List (String × Obj)) : Variables :=
  Variables.sets ⟨[], defaults⟩ defaults

/-- The class body of Variables defines no attribute named VARIABLES_FACTORY
either; modelled as an absent optional. -/
def Variables.VARIABLES_FACTORY : Option (Unit → List (String × Obj)) := none

/-- Variables.reset as written: the VARIABLES_FACTORY attribute lookup
raises AttributeError. -/
def Variables.reset (v : Variables) : Except Err Variables :=
  match Variables.VARIABLES_FACTORY with
  | none => .error (.attributeError "Variables object has no attribute VARIABLES_FACTORY")
  | some factory => .ok (Variables.sets ⟨factory (), v.defaults⟩ v.defaults)

/-- A Pipeline: name, stores, and the ordered stage table.  Logger settings
and the context-variable plumbing carry no data relevant to the claims. -/
structure Pipeline where
  name : String := "Pipeline"
  parameters : Parameters := ⟨[], [], []⟩
  pvariables : Variables := ⟨[], []⟩
  stages : StageTable := []

/-- Pipeline.run_stage: run one stage; a deliberate ExitPipeline from the
stage body is re-raised unchanged, any other exception is logged and
re-raised as ExitPipeline("Error in pipeline", True, e) from e.  In the
source the True lands in *args because the error parameter of
ExitPipeline.__init__ is keyword-only, so the error flag keeps its default
False. -/
def Pipeline.run_stage (p : Pipeline) (stage_key : String) (kwargs : List (String × Obj)) :
    Pipeline × Except Err Obj :=
  match pyLookup p.stages stage_key with
  | none => (p, .error (.keyError stage_key))
  | some curr =>
      match curr.run kwargs with
      | (curr', res) =>
          match res with
          | .ok output =>
              (⟨p.name, p.parameters, p.pvariables, pyInsert p.stages stage_key curr'⟩, .ok output)
          | .error (Err.ExitPipeline m err c) =>
              (⟨p.name, p.parameters, p.pvariables, pyInsert p.stages stage_key curr'⟩,
                .error (Err.ExitPipeline m err c))
          | .error e =>
              (⟨p.name, p.parameters, p.pvariables, pyInsert p.stages stage_key curr'⟩,
                .error (Err.ExitPipeline "Error in pipeline" false (some e)))

/-- Pipeline.run: iterate the stage keys in insertion order; record each
stage's raw output on success; an ExitPipeline raised by run_stage is
caught, logged by its error flag, and the loop continues with the next
stage; any other exception would propagate. -/
def Pipeline.run (p : Pipeline) (kwargs : List (String × Obj)) :
    Pipeline × Except Err (List (String × Obj)) :=
  (p.stages.map Prod.fst).foldl
    (fun acc stage_key =>
      match acc with
      | (q, .error e) => (q, .error e)
      | (q, .ok outs) =>
          match q.run_stage stage_key kwargs with
          | (q', .ok output) => (q', .ok (pyInsert outs stage_key output))
          | (q', .error (Err.ExitPipeline _ _ _)) => (q', .ok outs)
          | (q', .error e) => (q', .error e))
    (p, .ok [])

/-- Stage lifecycle events for stating the run-state invariant: an attempted
run with given overrides, or a reset. -/
inductive StageEvent where
  | run (kwargs : List (String × Obj))
  | reset

/-- One lifecycle step of a Stage. -/
def Stage.step (s : Stage) : StageEvent → Stage
  | StageEvent.run kw => (s.run kw).1
  | StageEvent.reset => s.reset

/-- A whole lifecycle history applied to a stage. -/
def Stage.runTrace (s : Stage) (es : List StageEvent) : Stage :=
  es.foldl Stage.step s

/-- The mapped outputs of the most recent completed run since the last
reset, if any: the accumulator is cleared by reset and overwritten by every
run that completes. -/
def lastCompleted (s : Stage) (acc : Option (List (String × Obj))) :
    List StageEvent → Option (List (String × Obj))
  | [] => acc
  | StageEvent.reset :: rest => lastCompleted s.reset none rest
  | StageEvent.run kw :: rest =>
      lastCompleted (s.run kw).1
        (if (s.run kw).2.isOk then some (s.run kw).1.outputs else acc) rest

/-- Recognizer for the binding failure exception type. -/
def Err.isUnboundInputException : Err → Bool
  | Err.UnboundInputException _ _ => true
  | _ => false

/-- Claim C4 as stated: construction of either output mapper succeeds
exactly when the behaviour sets exactly one of STRICT, CHILL, PRESERVE
(WARN_UNEXPECTED being a free modifier). -/
def exactlyOneOfThree (b : OutputMapperBehaviour) : Bool :=
  (cond b.strict 1 0) + (cond b.chill 1 0) + (cond b.preserve 1 0) == (1 : Nat)

def C4Claim : Prop :=
  ∀ (keys : List String) (kd : List (String × String)) (b : OutputMapperBehaviour),
    ((SequentialOutputMapper.mk? keys b).isOk ↔ exactlyOneOfThree b = true) ∧
      ((KeyedOutputMapper.mk? kd b).isOk ↔ exactlyOneOfThree b = true)

/-- Claim C5 as stated: for a freshly constructed stage and any lifecycle
history, outputs is non-empty and has_run is true exactly when some run has
completed since construction or the last reset. -/
def C5Claim : Prop :=
  ∀ (s0 : Stage), s0.has_run = false → s0.outputs = [] →
    ∀ (es : List StageEvent),
      ((Stage.runTrace s0 es).outputs ≠ [] ∧ (Stage.runTrace s0 es).has_run = true) ↔
        (lastCompleted s0 none es).isSome = true

/-- A stage whose body raises ValueError("boom"). -/
def boomStage : Stage :=
  ⟨fun _ => .error (.valueError "boom"), [], false, [], DEFAULT_OUTPUT_MAPPER⟩

/-- A stage whose body returns the integer 1. -/
def okStage : Stage :=
  ⟨fun _ => .ok (Obj.int 1), [], false, [], DEFAULT_OUTPUT_MAPPER⟩

/-- A two-stage pipeline whose first stage raises. -/
def demoPipeline : Pipeline :=
  ⟨"demo", ⟨[], [], []⟩, ⟨[], []⟩, [("a", boomStage), ("b", okStage)]⟩

/-- A stage that has not been run, for exercising DependencyInputMapper. -/
def unrunStage : Stage :=
  ⟨fun _ => .ok Obj.pynone, [], false, [], DEFAULT_OUTPUT_MAPPER⟩

/-- A stage returning an empty sequence, with a SequentialOutputMapper with
no keys: a completed run maps to an empty outputs dictionary. -/
def emptyOutStage : Stage :=
  ⟨fun _ => .ok (Obj.list []), [], false, [],
    SequentialOutputMapper.asOutputMapper ⟨[], STRICT⟩⟩

/-- A minimal stage for witnesses: no inputs, default output mapper. -/
def demoStage : Stage :=
  ⟨fun _ => .ok (Obj.int 42), [], false, [], DEFAULT_OUTPUT_MAPPER⟩

theorem any_key_eq_false {d : List (String × α)} {k : String}
    (h : k ∉ d.map Prod.fst) : d.any (fun p => p.1 == k) = false := by
  rw [List.any_eq_false]
  intro p hp
  simp only [beq_iff_eq]
  intro hk
  exact h (List.mem_map.mpr ⟨p, hp, hk⟩)

theorem pyInsert_of_not_mem (d : List (String × α)) (k : String) (v : α)
    (h : k ∉ d.map Prod.fst) : pyInsert d k v = d ++ [(k, v)] := by
  simp [pyInsert, any_key_eq_false h]

theorem pyUpdate_eq_append :
    ∀ (l d : List (String × α)),
      (∀ k ∈ l.map Prod.fst, k ∉ d.map Prod.fst) → (l.map Prod.fst).Nodup →
        pyUpdate d l = d ++ l := by
  intro l
  induction l with
  | nil => intro d _ _; simp [pyUpdate]
  | cons hd tl ih =>
      intro d hdisj hnd
      have hnd' : (hd.1 :: tl.map Prod.fst).Nodup := by simpa using hnd
      rcases List.nodup_cons.mp hnd' with ⟨hni, hnd2⟩
      have hk : hd.1 ∉ d.map Prod.fst := hdisj hd.1 (by simp)
      have step : pyUpdate d (hd :: tl) = pyUpdate (d ++ [(hd.1, hd.2)]) tl := by
        simp [pyUpdate, pyInsert_of_not_mem d hd.1 hd.2 hk]
      rw [step, ih (d ++ [(hd.1, hd.2)])]
      · simp
      · intro k hkmem
        simp only [List.map_append, List.mem_append, List.map_cons, List.map_nil,
          List.mem_singleton, List.mem_cons, List.not_mem_nil, or_false]
        rintro (hkd | hkd)
        · exact hdisj k (by simp [hkmem]) hkd
        · exact hni (hkd ▸ hkmem)
      · exact hnd2

theorem pyFromList_eq_self (l : List (String × α)) (h : (l.map Prod.fst).Nodup) :
    pyFromList l = l := by
  have := pyUpdate_eq_append l [] (by simp) h
  simpa [pyFromList] using this

theorem map_fst_zip_eq_take :
    ∀ (keys : List β) (x : List α), (keys.zip x).map Prod.fst = keys.take x.length := by
  intro keys
  induction keys with
  | nil => intro x; simp
  | cons k tl ih =>
      intro x
      cases x with
      | nil => simp
      | cons h t => simp [ih t]

theorem zip_take_len_right :
    ∀ (keys : List β) (x : List α), keys.zip (x.take keys.length) = keys.zip x := by
  intro keys
  induction keys with
  | nil => intro x; simp
  | cons k tl ih =>
      intro x
      cases x with
      | nil => simp
      | cons h t => simp [ih t]

theorem take_len_zip_left :
    ∀ (keys : List β) (x : List α), (keys.take x.length).zip x = keys.zip x := by
  intro keys
  induction keys with
  | nil => intro x; simp
  | cons k tl ih =>
      intro x
      cases x with
      | nil => simp
      | cons h t => simp [ih t]

theorem pyFromList_zip_eq (keys : List String) (x : List Obj) (hnd : keys.Nodup) :
    pyFromList (keys.zip x) = keys.zip x := by
  apply pyFromList_eq_self
  rw [map_fst_zip_eq_take]
  exact List.Sublist.nodup (List.take_sublist _ _) hnd

theorem Stage.run_error_state (s : Stage) (kw : List (String × Obj)) (e : Err)
    (h : (s.run kw).2 = .error e) : (s.run kw).1 = s := by
  unfold Stage.run at h ⊢
  cases hp : _prepare_inputs_and_context s.inputs with
  | error e1 => simp [hp]
  | ok pr =>
      cases pr with
      | mk ins lg =>
          simp only [hp] at h ⊢
          cases hf : s.function (pyUpdate ins kw) with
          | error e2 => simp [hf]
          | ok out =>
              simp only [hf] at h ⊢
              cases hm : s.output_mapper out with
              | error e3 => simp [hm]
              | ok mapped => simp [hm] at h

theorem Stage.run_ok_has_run (s : Stage) (kw : List (String × Obj)) (out : Obj)
    (h : (s.run kw).2 = .ok out) : (s.run kw).1.has_run = true := by
  unfold Stage.run at h ⊢
  cases hp : _prepare_inputs_and_context s.inputs with
  | error e1 => simp [hp] at h
  | ok pr =>
      cases pr with
      | mk ins lg =>
          simp only [hp] at h ⊢
          cases hf : s.function (pyUpdate ins kw) with
          | error e2 => simp [hf] at h
          | ok o =>
              simp only [hf] at h ⊢
              cases hm : s.output_mapper o with
              | error e3 => simp [hm] at h
              | ok mapped => simp [hm]

theorem trace_invariant :
    ∀ (es : List StageEvent) (s : Stage) (acc : Option (List (String × Obj))),
      s.has_run = acc.isSome → s.outputs = acc.getD [] →
        (Stage.runTrace s es).has_run = (lastCompleted s acc es).isSome ∧
          (Stage.runTrace s es).outputs = (lastCompleted s acc es).getD [] := by
  intro es
  induction es with
  | nil =>
      intro s acc h1 h2
      exact ⟨h1, h2⟩
  | cons e rest ih =>
      intro s acc h1 h2
      cases e with
      | reset =>
          have hT : Stage.runTrace s (StageEvent.reset :: rest) = Stage.runTrace s.reset rest := rfl
          have hL : lastCompleted s acc (StageEvent.reset :: rest) =
              lastCompleted s.reset none rest := rfl
          rw [hT, hL]
          exact ih s.reset none rfl rfl
      | run kw =>
          have hT : Stage.runTrace s (StageEvent.run kw :: rest) =
              Stage.runTrace (s.run kw).1 rest := rfl
          have hL : lastCompleted s acc (StageEvent.run kw :: rest) =
              lastCompleted (s.run kw).1
                (if (s.run kw).2.isOk then some (s.run kw).1.outputs else acc) rest := rfl
          rw [hT, hL]
          cases hr : (s.run kw).2 with
          | ok out =>
              have hh := Stage.run_ok_has_run s kw out hr
              simp only [hr, Except.isOk, if_true]
              exact ih (s.run kw).1 (some (s.run kw).1.outputs) (by simp [hh]) (by simp)
          | error e2 =>
              have hst := Stage.run_error_state s kw e2 hr
              simp only [hr, Except.isOk]
              rw [hst]
              exact ih s acc h1 h2

/-- C1: the claim states that a stage exception propagates out of
Pipeline.run and aborts the run.  Evaluating the embedding on a two-stage
pipeline whose first stage raises ValueError("boom") shows the code does
neither: run_stage wraps the exception in ExitPipeline (error flag False,
since the True lands in *args), Pipeline.run catches that wrapper and
continues, the second stage executes (has_run true), and run returns the
partial output dictionary normally. -/
theorem pipeline_run_swallows_stage_errors :
    (demoPipeline.run_stage "a" []).2 =
        .error (.ExitPipeline "Error in pipeline" false (some (.valueError "boom"))) ∧
      (demoPipeline.run []).2 = .ok [("b", Obj.int 1)] ∧
      ((demoPipeline.run []).1.stages.map (fun p => (p.1, p.2.has_run, p.2.outputs))) =
        [("a", false, []), ("b", true, [(DEFAULT_OUTPUT_KEY, Obj.int 1)])] := by
  exact ⟨rfl, rfl, rfl⟩

/-- C2: InputBinding resolution dispatch.  A bound source is passed to the
mapper even when a deferred source is set; an unbound source with a
deferred source passes the deferred object to the mapper; an unbound source
with no deferred source passes the UNBOUND sentinel to the mapper, so the
default mapper raises (wrapped as UnboundInputException). -/
theorem input_binding_resolution_rule (b : InputBinding) :
    (∀ v, b.source = Slot.bound v → b.call = wrapUnbound b (b.mapper v)) ∧
      (∀ d, b.source = Slot.unbound → b.defer = some d →
        b.call = wrapUnbound b (b.mapper d)) ∧
      (b.source = Slot.unbound → b.defer = none →
        b.call = wrapUnbound b (b.mapper (Obj.str UNBOUND))) ∧
      (b.source = Slot.unbound → b.defer = none → b.mapper = must_bind →
        b.call = .error (.UnboundInputException b.render (.valueError "Unbound input"))) := by
  rcases b with ⟨src, mp, df⟩
  refine ⟨?_, ?_, ?_, ?_⟩
  · intro v hv
    cases hv
    rfl
  · intro d h1 h2
    cases h1
    cases h2
    rfl
  · intro h1 h2
    cases h1
    cases h2
    rfl
  · intro h1 h2 h3
    cases h1
    cases h2
    cases h3
    rfl

theorem input_binding_resolution_rule_witness :
    (InputBinding.immediate (Obj.int 7)).source = Slot.bound (Obj.int 7) ∧
      (InputBinding.immediate (Obj.int 7)).call = .ok (Obj.int 7) := by
  refine ⟨rfl, ?_⟩
  have h := (input_binding_resolution_rule (InputBinding.immediate (Obj.int 7))).1
    (Obj.int 7) rfl
  exact h.trans rfl

/-- C3: the claim requires that a stage found in the table but not yet run,
with required=False, yields the default.  The code instead falls into the
catch-all match arm and raises a bare Exception reading "what the f";
evaluating the embedded DependencyInputMapper on exactly that input shows
the raise. -/
theorem dependency_mapper_not_run_not_required_raises :
    DependencyInputMapper.call ⟨"s", DEFAULT_OUTPUT_KEY, INPUT_NOT_FOUND, false⟩
        (some [("s", unrunStage)]) = .error (.genericExc "what the f") := rfl

/-- C4 counterexample: the claim says a behaviour setting two of STRICT,
CHILL, PRESERVE is rejected at construction, yet the validator accepts
STRICT | CHILL, so construction succeeds while exactly-one fails. -/
theorem mapper_flag_validation_counterexample : ¬ C4Claim := by
  intro h
  have h1 := (h [] [] (STRICT.or CHILL)).1
  have h2 : (SequentialOutputMapper.mk? [] (STRICT.or CHILL)).isOk = true := rfl
  exact absurd (h1.mp h2) (by decide)

/-- C4 amended: construction of a SequentialOutputMapper or
KeyedOutputMapper fails exactly when the behaviour includes none of STRICT,
CHILL, PRESERVE; any combination including at least one of them (even two
or three at once) is accepted at construction. -/
theorem mapper_flag_validation (keys : List String) (kd : List (String × String))
    (b : OutputMapperBehaviour) :
    ((SequentialOutputMapper.mk? keys b).isOk = true ↔
        (b.strict = true ∨ b.chill = true ∨ b.preserve = true)) ∧
      ((KeyedOutputMapper.mk? kd b).isOk = true ↔
        (b.strict = true ∨ b.chill = true ∨ b.preserve = true)) := by
  rcases b with ⟨s, c, p, w⟩
  cases s <;> cases c <;> cases p <;>
    simp [SequentialOutputMapper.mk?, KeyedOutputMapper.mk?,
      OutputMapperBehaviour.attrsvalidator, OutputMapperBehaviour.mem,
      STRICT, CHILL, PRESERVE, Except.isOk, Except.toBool]

/-- C5 counterexample: a stage whose output mapper legitimately produces an
empty mapping (SequentialOutputMapper with no keys applied to an empty
sequence) completes a run with outputs empty and has_run true, so the
claimed biconditional fails after one completed run. -/
theorem stage_invariant_counterexample : ¬ C5Claim := by
  intro h
  have h1 := h emptyOutStage rfl rfl [StageEvent.run []]
  have h2 : (lastCompleted emptyOutStage none [StageEvent.run []]).isSome = true := rfl
  exact (h1.mpr h2).1 rfl

/-- C5 amended: for a freshly constructed stage and any lifecycle history,
has_run is true exactly when some run has completed since construction or
the last reset, and outputs equals the output mapping recorded by the most
recent such run (empty when there is none).  The original non-emptiness
claim holds only when that recorded mapping is non-empty, as under the
default output mapper. -/
theorem stage_run_state_invariant (s0 : Stage) (h1 : s0.has_run = false)
    (h2 : s0.outputs = []) (es : List StageEvent) :
    (Stage.runTrace s0 es).has_run = (lastCompleted s0 none es).isSome ∧
      (Stage.runTrace s0 es).outputs = (lastCompleted s0 none es).getD [] := by
  exact trace_invariant es s0 none (by simp [h1]) (by simp [h2])

theorem stage_run_state_invariant_witness :
    demoStage.has_run = false ∧ demoStage.outputs = [] ∧
      (Stage.runTrace demoStage [StageEvent.run []]).has_run =
        (lastCompleted demoStage none [StageEvent.run []]).isSome ∧
      (Stage.runTrace demoStage [StageEvent.run []]).outputs =
        (lastCompleted demoStage none [StageEvent.run []]).getD [] := by
  refine ⟨rfl, rfl, ?_, ?_⟩
  · exact (stage_run_state_invariant demoStage rfl rfl [StageEvent.run []]).1
  · exact (stage_run_state_invariant demoStage rfl rfl [StageEvent.run []]).2

/-- C6: SequentialOutputMapper on distinct keys that do not contain the
reserved extra key: exact length zips positionally; on mismatch STRICT
raises, CHILL keeps only the overlapping prefix, and PRESERVE keeps the
overlapping prefix plus the remainder as a list under the reserved key when
the sequence is longer. -/
theorem sequential_output_mapper_spec (keys : List String) (x : List Obj)
    (hnd : keys.Nodup) (hex : EXTRA_MAPPING_KEY ∉ keys) :
    (∀ b, x.length = keys.length →
        SequentialOutputMapper.call ⟨keys, b⟩ x = .ok (keys.zip x)) ∧
      (x.length ≠ keys.length →
        SequentialOutputMapper.call ⟨keys, STRICT⟩ x =
          .error (.valueError ("Length of x (" ++ toString x.length ++ ") does not match length of keys (" ++ toString keys.length ++ ")")) ∧
        SequentialOutputMapper.call ⟨keys, CHILL⟩ x = .ok (keys.zip x) ∧
        SequentialOutputMapper.call ⟨keys, PRESERVE⟩ x =
          .ok (if x.length > keys.length then
                 keys.zip x ++ [(EXTRA_MAPPING_KEY, Obj.list (x.drop keys.length))]
               else keys.zip x)) := by
  have hexzip : EXTRA_MAPPING_KEY ∉ (keys.zip x).map Prod.fst := by
    rw [map_fst_zip_eq_take]
    intro hmem
    exact hex (List.take_subset _ _ hmem)
  constructor
  · intro b hlen
    have hbeq : (x.length == keys.length) = true := by simp [hlen]
    simp [SequentialOutputMapper.call, hbeq, pyFromList_zip_eq keys x hnd]
  · intro hlen
    have hbeq : (x.length == keys.length) = false := by simp [hlen]
    refine ⟨?_, ?_, ?_⟩
    · simp [SequentialOutputMapper.call, hbeq, SequentialOutputMapper.handle_unexpected,
        OutputMapperBehaviour.toList, STRICT]
    · simp [SequentialOutputMapper.call, hbeq, SequentialOutputMapper.handle_unexpected,
        OutputMapperBehaviour.toList, CHILL, zip_take_len_right, take_len_zip_left,
        pyFromList_zip_eq keys x hnd]
    · by_cases hgt : x.length > keys.length
      · simp only [SequentialOutputMapper.call, hbeq, Bool.false_eq_true, if_false,
          SequentialOutputMapper.handle_unexpected, OutputMapperBehaviour.toList, PRESERVE,
          if_true, if_false, List.append_nil, List.nil_append, hgt,
          zip_take_len_right, pyFromList_zip_eq keys x hnd]
        have hsingle : pyUpdate (keys.zip x) [(EXTRA_MAPPING_KEY, Obj.list (x.drop keys.length))] =
            pyInsert (keys.zip x) EXTRA_MAPPING_KEY (Obj.list (x.drop keys.length)) := rfl
        rw [hsingle, pyInsert_of_not_mem _ _ _ hexzip]
      · simp [SequentialOutputMapper.call, hbeq, SequentialOutputMapper.handle_unexpected,
          OutputMapperBehaviour.toList, PRESERVE, hgt, take_len_zip_left,
          pyFromList_zip_eq keys x hnd]

theorem sequential_output_mapper_spec_witness :
    (["a", "b", "c"] : List String).Nodup ∧
      EXTRA_MAPPING_KEY ∉ (["a", "b", "c"] : List String) ∧
      SequentialOutputMapper.call ⟨["a", "b", "c"], PRESERVE⟩
          [Obj.str "1", Obj.str "2", Obj.str "3", Obj.str "4"] =
        .ok [("a", Obj.str "1"), ("b", Obj.str "2"), ("c", Obj.str "3"),
          (EXTRA_MAPPING_KEY, Obj.list [Obj.str "4"])] := by
  refine ⟨by decide, by decide, ?_⟩
  have h := (sequential_output_mapper_spec ["a", "b", "c"]
      [Obj.str "1", Obj.str "2", Obj.str "3", Obj.str "4"] (by decide) (by decide)).2
    (by decide)
  exact h.2.2.trans (by rfl)

/-- C7: every exception raised while resolving an InputBinding is re-raised
as UnboundInputException carrying the original exception as cause and the
textual rendering of the binding's source, mapper and defer state, and no
other exception type ever escapes the call. -/
theorem binding_failure_wrapping (b : InputBinding) :
    (∀ e, b.attempt = .error e →
        b.call = .error (.UnboundInputException b.render e)) ∧
      (∀ e, b.call = .error e → e.isUnboundInputException = true) := by
  constructor
  · intro e he
    simp [InputBinding.call, wrapUnbound, he]
  · intro e he
    cases ha : b.attempt with
    | ok v => simp [InputBinding.call, wrapUnbound, ha] at he
    | error c =>
        simp only [InputBinding.call, wrapUnbound, ha] at he
        cases he
        rfl

theorem binding_failure_wrapping_witness :
    (⟨Slot.unbound, must_bind, none⟩ : InputBinding).attempt =
        .error (.valueError "Unbound input") ∧
      (⟨Slot.unbound, must_bind, none⟩ : InputBinding).call =
        .error (.UnboundInputException
          (InputBinding.render ⟨Slot.unbound, must_bind, none⟩)
          (.valueError "Unbound input")) := by
  refine ⟨rfl, ?_⟩
  exact (binding_failure_wrapping ⟨Slot.unbound, must_bind, none⟩).1 _ rfl

/-- C8: Stage.run swallows nothing: an input-resolution failure and a
function failure are returned unchanged, and whenever run fails, the
stage's state (has_run, outputs, everything) is exactly the pre-call
state. -/
theorem stage_run_propagates_uncaught (s : Stage) (kwargs : List (String × Obj)) :
    (∀ e, _prepare_inputs_and_context s.inputs = .error e → s.run kwargs = (s, .error e)) ∧
      (∀ ins lg e, _prepare_inputs_and_context s.inputs = .ok (ins, lg) →
          s.function (pyUpdate ins kwargs) = .error e → s.run kwargs = (s, .error e)) ∧
      (∀ e, (s.run kwargs).2 = .error e → (s.run kwargs).1 = s) := by
  refine ⟨?_, ?_, ?_⟩
  · intro e he
    unfold Stage.run
    rw [he]
  · intro ins lg e h1 h2
    simp [Stage.run, h1, h2]
  · intro e he
    exact Stage.run_error_state s kwargs e he

theorem stage_run_propagates_uncaught_witness :
    (boomStage.run []).2 = .error (.valueError "boom") ∧
      (boomStage.run []).1 = boomStage := by
  refine ⟨rfl, ?_⟩
  exact (stage_run_propagates_uncaught boomStage []).2.2 _ rfl

/-- C9: the claim says reset restores the defaults without raising for
every store built via define, but both reset methods read a class attribute
(PARAMATERS_FACTORY, VARIABLES_FACTORY) that is defined nowhere, so reset
raises AttributeError on every store. -/
theorem parameters_variables_reset_raises :
    (Parameters.define [] [("a", Obj.int 1)]).bind Parameters.reset =
        .error (.attributeError "Parameters object has no attribute PARAMATERS_FACTORY") ∧
      Variables.reset (Variables.define [("a", Obj.int 1)]) =
        .error (.attributeError "Variables object has no attribute VARIABLES_FACTORY") := by
  exact ⟨rfl, rfl⟩

/-- C10: the unbound marker is the string "UNBOUND" and must_bind compares
by value, so an immediate binding whose bound value equals that string
raises the wrapped binding failure when called, indistinguishably from a
binding left unbound. -/
theorem unbound_sentinel_value_equality :
    must_bind (Obj.str UNBOUND) = .error (.valueError "Unbound input") ∧
      (InputBinding.immediate (Obj.str UNBOUND)).call =
        .error (.UnboundInputException
          (InputBinding.render (InputBinding.immediate (Obj.str UNBOUND)))
          (.valueError "Unbound input")) ∧
      (InputBinding.immediate (Obj.str UNBOUND)).call =
        (⟨Slot.unbound, must_bind, none⟩ : InputBinding).call := by
  exact ⟨rfl, rfl, rfl⟩
